import Mathlib

/-!
# libudev reproducers: a shallow embedding

Every file under `reproducers/` is one C `main` that calls libudev and
returns an `int`.  libudev itself is a third-party library, so each `main` is
embedded as a function of a *behaviour*: a record holding what libudev answers
at each call the program makes (one field per call site, or a function of the
arguments where the arguments are computed at run time).  Any library,
stateful or not, induces such a record, because each program issues its calls
in a fixed order.

* a nullable pointer to a library object (`struct udev *`,
  `struct udev_device *`, `struct udev_enumerate *`) is an `Option Handle`;
* a nullable `char const *` is an `Option String`;
* a `struct udev_list_entry *` is the finite list of entries that starts at
  the pointed entry, `[]` being `NULL`;
* the result of `main` is an `Outcome`: the returned `int` together with the
  trace of library calls and `printf` writes, in program order.
-/

set_option autoImplicit false

namespace Udev

/-- Address of a library object; programs only test it against `NULL` and hand it back. -/
abbrev Handle := Nat

/-- One `struct udev_list_entry`: its name and its (nullable) value. -/
structure Entry where
  name : String
  value : Option String
deriving DecidableEq, Repr

/-- The libudev entry points used by the reproducers. -/
inductive Fn where
  | udev_new
  | udev_enumerate_new
  | udev_device_new_from_syspath
  | udev_device_new_from_subsystem_sysname
  | udev_device_get_sysname
  | udev_device_get_subsystem
  | udev_device_get_syspath
  | udev_device_get_sysattr_value
  | udev_device_get_sysattr_list_entry
  | udev_enumerate_add_match_parent
  | udev_enumerate_add_match_sysattr
  | udev_enumerate_scan_devices
  | udev_enumerate_get_list_entry
  | udev_list_entry_get_name
  | udev_list_entry_get_value
  | udev_list_entry_get_next
  | udev_list_entry_get_by_name
deriving DecidableEq, Repr

/-- An actual argument of a library call. -/
inductive Arg where
  | ptr (p : Option Handle)
  | str (s : Option String)
  | entry (e : List Entry)
deriving DecidableEq, Repr

/-- An observable step of a run: a library call or a write to stdout. -/
inductive Event where
  | call (fn : Fn) (args : List Arg)
  | printf (text : String)
deriving DecidableEq, Repr

/-- What a run of `main` produces: the returned `int` and the trace of the run. -/
structure Outcome where
  status : Int
  trace : List Event
deriving DecidableEq, Repr

/-- The library functions called during a run, in order. -/
def calls : List Event → List Fn
  | [] => []
  | Event.call fn _ :: t => fn :: calls t
  | Event.printf _ :: t => calls t

/-- The chunks written to stdout during a run, in order. -/
def stdout : List Event → List String
  | [] => []
  | Event.call _ _ :: t => stdout t
  | Event.printf s :: t => s :: stdout t

/-- How glibc's `printf` renders a `%s` argument; a `NULL` pointer is shown as `(null)`. -/
def fmt_s : Option String → String
  | some s => s
  | none => "(null)"

/-- `udev_list_entry_get_name(entry)` for a non-`NULL` entry. -/
def udev_list_entry_get_name (e : Entry) : String := e.name

/-- `udev_list_entry_get_value(entry)`; libudev answers `NULL` for a `NULL` entry. -/
def udev_list_entry_get_value : List Entry → Option String
  | [] => none
  | e :: _ => e.value

/-- `udev_list_entry_get_next(entry)`: the rest of the list, `[]` at the end. -/
def udev_list_entry_get_next : List Entry → List Entry
  | [] => []
  | _ :: rest => rest

/-- C `strlen` on a string: its length in bytes. -/
def strlen (s : String) : Nat := s.utf8ByteSize

/-- C `strcmp(a, b) == 0`: the two strings are equal. -/
def strcmp_eq (a b : String) : Bool := a == b

/-! ## reproducers/1263351.c -/

namespace R1263351

/-- What libudev answers to the calls of `1263351.c`. -/
structure Behaviour where
  /-- line 11, `udev_new()` -/
  context : Option Handle
  /-- line 14, lookup of `"block"`, `"sdaj"` -/
  block_sdaj : Option Handle
  /-- line 26, lookup of `"input"`, `"event0"` -/
  input_event0 : Option Handle
  /-- line 37, lookup of `"iLO"`, `"hpilo/d0ccb10"` -/
  ilo_hpilo : Option Handle

/-- `main` of `reproducers/1263351.c`. -/
def main (b : Behaviour) : Outcome :=
  let context := b.context
  let t := [Event.call Fn.udev_new []]
  let device := b.block_sdaj
  let t := t ++ [Event.call Fn.udev_device_new_from_subsystem_sysname
    [Arg.ptr context, Arg.str (some "block"), Arg.str (some "sdaj")]]
  if device = none then ⟨3, t⟩ else
  let device := b.input_event0
  let t := t ++ [Event.call Fn.udev_device_new_from_subsystem_sysname
    [Arg.ptr context, Arg.str (some "input"), Arg.str (some "event0")]]
  if device = none then ⟨2, t⟩ else
  let device := b.ilo_hpilo
  let t := t ++ [Event.call Fn.udev_device_new_from_subsystem_sysname
    [Arg.ptr context, Arg.str (some "iLO"), Arg.str (some "hpilo/d0ccb10")]]
  if device = none then ⟨1, t⟩ else
  ⟨0, t⟩

end R1263351

/-! ## reproducers/1263351a.c -/

namespace R1263351a

/-- What libudev answers to the calls of `1263351a.c`. -/
structure Behaviour where
  /-- line 13, `udev_new()` -/
  context : Option Handle
  /-- line 15, the lookup by syspath -/
  udev_device_new_from_syspath : Option Handle
  /-- line 25, by device -/
  udev_device_get_sysname : Option Handle → Option String
  /-- line 31, by device -/
  udev_device_get_subsystem : Option Handle → Option String
  /-- line 37, by subsystem and sysname -/
  udev_device_new_from_subsystem_sysname : Option String → Option String → Option Handle

/-- `main` of `reproducers/1263351a.c`. -/
def main (b : Behaviour) : Outcome :=
  let context := b.context
  let t := [Event.call Fn.udev_new []]
  let device := b.udev_device_new_from_syspath
  let t := t ++ [Event.call Fn.udev_device_new_from_syspath [Arg.ptr context,
    Arg.str (some "/sys/devices/pci0000:00/0000:00:1c.2/0000:01:00.2/iLO/hpilo!d0ccb0")]]
  if device = none then ⟨1, t⟩ else
  let sys_name := b.udev_device_get_sysname device
  let t := t ++ [Event.call Fn.udev_device_get_sysname [Arg.ptr device]]
  if sys_name = none then ⟨2, t⟩ else
  let t := t ++ [Event.printf (fmt_s sys_name ++ "\n")]
  let subsystem := b.udev_device_get_subsystem device
  let t := t ++ [Event.call Fn.udev_device_get_subsystem [Arg.ptr device]]
  if subsystem = none then ⟨3, t⟩ else
  let t := t ++ [Event.printf (fmt_s subsystem ++ "\n")]
  let new_device := b.udev_device_new_from_subsystem_sysname subsystem sys_name
  let t := t ++ [Event.call Fn.udev_device_new_from_subsystem_sysname
    [Arg.ptr context, Arg.str subsystem, Arg.str sys_name]]
  if new_device = none then ⟨4, t⟩ else
  ⟨0, t⟩

end R1263351a

/-! ## reproducers/1265315.c -/

namespace R1265315

/-- What libudev answers to the calls of `1265315.c`. -/
structure Behaviour where
  /-- line 14, `udev_new()` -/
  context : Option Handle
  /-- line 16, the lookup by syspath -/
  device : Option Handle
  /-- line 23, the sysattr list fetched for the first listing -/
  sysattr_list_1 : List Entry
  /-- line 34, the sysattr list fetched for the second listing -/
  sysattr_list_2 : List Entry
  /-- line 37, `udev_device_get_sysattr_value(device, name)`, by name -/
  sysattr_value : String → Option String
  /-- line 45, `udev_device_get_sysattr_value(device, "bogus")` -/
  bogus : Option String
  /-- line 50, the sysattr list fetched for the fourth listing -/
  sysattr_list_4 : List Entry
  /-- line 54, `udev_list_entry_get_by_name(start, name)`, by start and name -/
  udev_list_entry_get_by_name : List Entry → String → List Entry

/-- The loop of lines 24-29: every value is read from the entry itself. -/
def loop_1 : List Entry → List Event
  | [] => []
  | e :: rest =>
    let entry := e :: rest
    let name := udev_list_entry_get_name e
    let value := udev_list_entry_get_value entry
    [Event.call Fn.udev_list_entry_get_name [Arg.entry entry],
     Event.call Fn.udev_list_entry_get_value [Arg.entry entry],
     Event.printf (name ++ ": " ++ fmt_s value ++ "\n"),
     Event.call Fn.udev_list_entry_get_next [Arg.entry entry]] ++ loop_1 rest

/-- The loop of lines 35-40: every value is asked of the device by name. -/
def loop_2 (b : Behaviour) : List Entry → List Event
  | [] => []
  | e :: rest =>
    let entry := e :: rest
    let name := udev_list_entry_get_name e
    let value := b.sysattr_value name
    [Event.call Fn.udev_list_entry_get_name [Arg.entry entry],
     Event.call Fn.udev_device_get_sysattr_value [Arg.ptr b.device, Arg.str (some name)],
     Event.printf (name ++ ": " ++ fmt_s value ++ "\n"),
     Event.call Fn.udev_list_entry_get_next [Arg.entry entry]] ++ loop_2 b rest

/-- The loop of lines 52-58: every value is read from the entry that
`udev_list_entry_get_by_name(start, name)` returns. -/
def loop_4 (b : Behaviour) (start : List Entry) : List Entry → List Event
  | [] => []
  | e :: rest =>
    let entry := e :: rest
    let name := udev_list_entry_get_name e
    let other_entry := b.udev_list_entry_get_by_name start name
    let value := udev_list_entry_get_value other_entry
    [Event.call Fn.udev_list_entry_get_name [Arg.entry entry],
     Event.call Fn.udev_list_entry_get_by_name [Arg.entry start, Arg.str (some name)],
     Event.call Fn.udev_list_entry_get_value [Arg.entry other_entry],
     Event.printf (name ++ ": " ++ fmt_s value ++ "\n"),
     Event.call Fn.udev_list_entry_get_next [Arg.entry entry]] ++ loop_4 b start rest

/-- Lines 14-30: context, device and the first listing. -/
def listing_1 (b : Behaviour) : List Event :=
  let context := b.context
  let t := [Event.call Fn.udev_new []]
  let device := b.device
  let t := t ++ [Event.call Fn.udev_device_new_from_syspath [Arg.ptr context,
    Arg.str (some "/sys/devices/LNXSYSTM:00/LNXSYBUS:00/PNP0A08:00/device:26/device:27")]]
  let t := t ++ [Event.printf "udev_list_entry_get_value()\n"]
  let t := t ++ [Event.printf "Correct behavior, values are not obtained.\n"]
  let entry := b.sysattr_list_1
  let t := t ++ [Event.call Fn.udev_device_get_sysattr_list_entry [Arg.ptr device]]
  let t := t ++ loop_1 entry
  t ++ [Event.printf "\n"]

/-- Lines 32-41: the second listing. -/
def listing_2 (b : Behaviour) : List Event :=
  let device := b.device
  let t := [Event.printf "udev_device_get_sysattr_value()\n"]
  let t := t ++ [Event.printf "Incorrect behavior; physical_node should have a value.\n"]
  let entry := b.sysattr_list_2
  let t := t ++ [Event.call Fn.udev_device_get_sysattr_list_entry [Arg.ptr device]]
  let t := t ++ loop_2 b entry
  t ++ [Event.printf "\n"]

/-- Lines 43-47: the attribute that does not exist. -/
def listing_3 (b : Behaviour) : List Event :=
  let device := b.device
  let t := [Event.printf "udev_device_get_sysattr_value(bogus)\n"]
  let t := t ++ [Event.printf "correct behavior, value of non-existant attribute is null.\n"]
  let value := b.bogus
  let t := t ++ [Event.call Fn.udev_device_get_sysattr_value
    [Arg.ptr device, Arg.str (some "bogus")]]
  let t := t ++ [Event.printf ("bogus: " ++ fmt_s value ++ "\n")]
  t ++ [Event.printf "\n"]

/-- Lines 49-59: the fourth listing. -/
def listing_4 (b : Behaviour) : List Event :=
  let device := b.device
  let t := [Event.printf "Should be like the first.\n"]
  let entry := b.sysattr_list_4
  let t := t ++ [Event.call Fn.udev_device_get_sysattr_list_entry [Arg.ptr device]]
  let start := entry
  let t := t ++ loop_4 b start entry
  t ++ [Event.printf "\n"]

/-- `main` of `reproducers/1265315.c`: the four listings in sequence, then `return 0`. -/
def main (b : Behaviour) : Outcome :=
  ⟨0, listing_1 b ++ listing_2 b ++ listing_3 b ++ listing_4 b⟩

end R1265315

/-! ## reproducers/1297512.c -/

namespace R1297512

/-- What libudev answers to the calls of `1297512.c`. -/
structure Behaviour where
  /-- line 15, `udev_new()` -/
  context : Option Handle
  /-- line 20, lookup of the block device `.../block/sda` -/
  device_sda : Option Handle
  /-- line 22, lookup of its ancestor `.../ata1` -/
  device_ata1 : Option Handle
  /-- line 28, `udev_device_get_syspath(device)` -/
  syspath : Option String
  /-- line 33, `udev_enumerate_new(context)` -/
  enumerator : Option Handle
  /-- line 34, `udev_enumerate_scan_devices(enumerator)` -/
  scan_devices : Int
  /-- line 40, `udev_enumerate_get_list_entry(enumerator)` -/
  list_entry : List Entry

/-- The loop of lines 41-47: `some 2` when the loop body returns 2, `none` when the loop runs
to the end of the list. -/
def loop (dev_name : String) : List Entry → List Event → Option Int × List Event
  | [], t => (none, t)
  | e :: rest, t =>
    let entry := e :: rest
    let name := udev_list_entry_get_name e
    let t := t ++ [Event.call Fn.udev_list_entry_get_name [Arg.entry entry]]
    if strcmp_eq dev_name name then (some 2, t) else
    loop dev_name rest (t ++ [Event.call Fn.udev_list_entry_get_next [Arg.entry entry]])

set_option linter.unusedVariables false in
/-- `main` of `reproducers/1297512.c`.  Line 22 overwrites the handle that line 20 stored in
`device`. -/
def main (b : Behaviour) : Outcome :=
  let context := b.context
  let t := [Event.call Fn.udev_new []]
  let device := b.device_sda
  let t := t ++ [Event.call Fn.udev_device_new_from_syspath [Arg.ptr context, Arg.str (some
    "/sys/devices/pci0000:00/0000:00:1f.2/ata1/host0/target0:0:0/0:0:0:0/block/sda")]]
  let device := b.device_ata1
  let t := t ++ [Event.call Fn.udev_device_new_from_syspath [Arg.ptr context,
    Arg.str (some "/sys/devices/pci0000:00/0000:00:1f.2/ata1")]]
  if device = none then ⟨-1, t⟩ else
  let t := t ++ [Event.call Fn.udev_device_get_syspath [Arg.ptr device]]
  match b.syspath with
  | none => ⟨-1, t⟩
  | some dev_name =>
  let enumerator := b.enumerator
  let t := t ++ [Event.call Fn.udev_enumerate_new [Arg.ptr context]]
  let res := b.scan_devices
  let t := t ++ [Event.call Fn.udev_enumerate_scan_devices [Arg.ptr enumerator]]
  if res < 0 then ⟨res, t⟩ else
  let entry := b.list_entry
  let t := t ++ [Event.call Fn.udev_enumerate_get_list_entry [Arg.ptr enumerator]]
  match loop dev_name entry t with
  | (some r, t) => ⟨r, t⟩
  | (none, t) => ⟨0, t⟩

end R1297512

/-! ## reproducers/1302359.c -/

namespace R1302359

/-- What libudev answers to the calls of `1302359.c`. -/
structure Behaviour where
  /-- line 16, `udev_new()` -/
  context : Option Handle
  /-- line 22, lookup of `.../host1/target1:0:0/1:0:0:0` -/
  device_1 : Option Handle
  /-- line 27, `udev_device_get_sysattr_value(device, "vpd_pg83")` on the first device -/
  attr_1 : Option String
  /-- line 38, lookup of `.../host2/target2:0:9/2:0:9:0` -/
  device_2 : Option Handle
  /-- line 43, `udev_device_get_sysattr_value(device, "vpd_pg83")` on the second device -/
  attr_2 : Option String

/-- `main` of `reproducers/1302359.c`. -/
def main (b : Behaviour) : Outcome :=
  let context := b.context
  let t := [Event.call Fn.udev_new []]
  let device := b.device_1
  let t := t ++ [Event.call Fn.udev_device_new_from_syspath [Arg.ptr context, Arg.str (some
    "/sys/devices/pci0000:00/0000:00:03.0/0000:03:00.0/host1/target1:0:0/1:0:0:0")]]
  if device = none then ⟨-1, t⟩ else
  let t := t ++ [Event.call Fn.udev_device_get_sysattr_value
    [Arg.ptr device, Arg.str (some "vpd_pg83")]]
  match b.attr_1 with
  | none => ⟨-1, t⟩
  | some attr =>
  if strlen attr > 0 then ⟨-1, t⟩ else
  let device := b.device_2
  let t := t ++ [Event.call Fn.udev_device_new_from_syspath [Arg.ptr context, Arg.str (some
    "/sys/devices/pci0000:80/0000:80:02.0/0000:81:00.0/host2/target2:0:9/2:0:9:0")]]
  if device = none then ⟨-1, t⟩ else
  let t := t ++ [Event.call Fn.udev_device_get_sysattr_value
    [Arg.ptr device, Arg.str (some "vpd_pg83")]]
  match b.attr_2 with
  | none => ⟨-1, t⟩
  | some attr =>
  if strlen attr = 0 then ⟨-1, t⟩ else
  ⟨0, t⟩

end R1302359

/-! ## The enumeration reproducers: 1255191.c, 1346446.c, 1347299.c -/

/-- The loop `while (entry) { name = ...get_name(entry); printf("%s\n", name);
entry = ...get_next(entry); }` shared, verbatim, by the three enumeration reproducers
(1255191.c lines 25-29, 1346446.c lines 34-38, 1347299.c lines 32-36).  In this and the
other loops `rest` is `udev_list_entry_get_next entry`. -/
def print_names : List Entry → List Event
  | [] => []
  | e :: rest =>
    let entry := e :: rest
    let name := udev_list_entry_get_name e
    [Event.call Fn.udev_list_entry_get_name [Arg.entry entry],
     Event.printf (name ++ "\n"),
     Event.call Fn.udev_list_entry_get_next [Arg.entry entry]] ++ print_names rest

namespace R1255191

/-- What libudev answers to the calls of `1255191.c`. -/
structure Behaviour where
  /-- line 11, `udev_new()` -/
  context : Option Handle
  /-- line 12, `udev_enumerate_new(context)` -/
  enumerator : Option Handle
  /-- line 13, lookup of `/sys/devices/system/memory` -/
  device : Option Handle
  /-- line 14, `udev_enumerate_add_match_parent(enumerator, device)` -/
  add_match_parent : Int
  /-- line 19, `udev_enumerate_scan_devices(enumerator)` -/
  scan_devices : Int
  /-- line 24, `udev_enumerate_get_list_entry(enumerator)` -/
  list_entry : List Entry

/-- `main` of `reproducers/1255191.c`. -/
def main (b : Behaviour) : Outcome :=
  let context := b.context
  let t := [Event.call Fn.udev_new []]
  let enumerator := b.enumerator
  let t := t ++ [Event.call Fn.udev_enumerate_new [Arg.ptr context]]
  let device := b.device
  let t := t ++ [Event.call Fn.udev_device_new_from_syspath
    [Arg.ptr context, Arg.str (some "/sys/devices/system/memory")]]
  let res := b.add_match_parent
  let t := t ++ [Event.call Fn.udev_enumerate_add_match_parent
    [Arg.ptr enumerator, Arg.ptr device]]
  if res < 0 then ⟨res, t⟩ else
  let res := b.scan_devices
  let t := t ++ [Event.call Fn.udev_enumerate_scan_devices [Arg.ptr enumerator]]
  if res < 0 then ⟨res, t⟩ else
  let entry := b.list_entry
  let t := t ++ [Event.call Fn.udev_enumerate_get_list_entry [Arg.ptr enumerator]]
  let t := t ++ print_names entry
  ⟨0, t⟩

end R1255191

namespace R1346446

/-- What libudev answers to the calls of `1346446.c`. -/
structure Behaviour where
  /-- line 11, `udev_new()` -/
  context : Option Handle
  /-- line 12, `udev_enumerate_new(context)` -/
  enumerator : Option Handle
  /-- line 28, `udev_enumerate_scan_devices(enumerator)` -/
  scan_devices : Int
  /-- line 33, `udev_enumerate_get_list_entry(enumerator)` -/
  list_entry : List Entry

/-- `main` of `reproducers/1346446.c`. -/
def main (b : Behaviour) : Outcome :=
  let context := b.context
  let t := [Event.call Fn.udev_new []]
  let enumerator := b.enumerator
  let t := t ++ [Event.call Fn.udev_enumerate_new [Arg.ptr context]]
  let res := b.scan_devices
  let t := t ++ [Event.call Fn.udev_enumerate_scan_devices [Arg.ptr enumerator]]
  if res < 0 then ⟨res, t⟩ else
  let entry := b.list_entry
  let t := t ++ [Event.call Fn.udev_enumerate_get_list_entry [Arg.ptr enumerator]]
  let t := t ++ print_names entry
  ⟨0, t⟩

end R1346446

namespace R1347299

/-- What libudev answers to the calls of `1347299.c`. -/
structure Behaviour where
  /-- line 12, `udev_new()` -/
  context : Option Handle
  /-- line 13, `udev_enumerate_new(context)` -/
  enumerator : Option Handle
  /-- line 14, lookup of `/sys/devices/LNXSYSTM:00/LNXSYBUS:00/PNP0A08:00` -/
  device : Option Handle
  /-- line 16, `udev_device_get_sysattr_value(device, "path")` before the scan -/
  path_before : Option String
  /-- line 26, `udev_enumerate_scan_devices(enumerator)` -/
  scan_devices : Int
  /-- line 31, `udev_enumerate_get_list_entry(enumerator)` -/
  list_entry : List Entry
  /-- line 38, `udev_device_get_sysattr_value(device, "path")` after the scan -/
  path_after : Option String

/-- `main` of `reproducers/1347299.c`.  The status of `udev_enumerate_add_match_sysattr`
(line 23) is discarded by the program, so the behaviour has no field for it. -/
def main (b : Behaviour) : Outcome :=
  let context := b.context
  let t := [Event.call Fn.udev_new []]
  let enumerator := b.enumerator
  let t := t ++ [Event.call Fn.udev_enumerate_new [Arg.ptr context]]
  let device := b.device
  let t := t ++ [Event.call Fn.udev_device_new_from_syspath [Arg.ptr context,
    Arg.str (some "/sys/devices/LNXSYSTM:00/LNXSYBUS:00/PNP0A08:00")]]
  let path := b.path_before
  let t := t ++ [Event.call Fn.udev_device_get_sysattr_value
    [Arg.ptr device, Arg.str (some "path")]]
  let t := t ++ [Event.printf ("path before: " ++ fmt_s path ++ "\n")]
  let t := t ++ [Event.call Fn.udev_enumerate_add_match_sysattr
    [Arg.ptr enumerator, Arg.str (some "path"), Arg.str path]]
  let t := t ++ [Event.printf "Printing devices...\n"]
  let res := b.scan_devices
  let t := t ++ [Event.call Fn.udev_enumerate_scan_devices [Arg.ptr enumerator]]
  if res < 0 then ⟨res, t⟩ else
  let entry := b.list_entry
  let t := t ++ [Event.call Fn.udev_enumerate_get_list_entry [Arg.ptr enumerator]]
  let t := t ++ print_names entry
  let path := b.path_after
  let t := t ++ [Event.call Fn.udev_device_get_sysattr_value
    [Arg.ptr device, Arg.str (some "path")]]
  let t := t ++ [Event.printf ("path after: " ++ fmt_s path ++ "\n")]
  ⟨0, t⟩

end R1347299

/-! ## Properties of runs and sample behaviours -/

/-- The returned status identifies the step that failed: two runs that return the same
non-zero status stopped at the same place, that is, made the same sequence of library
calls. -/
def StatusIdentifiesStep {β : Type} (run : β → Outcome) : Prop :=
  ∀ b1 b2 : β, (run b1).status ≠ 0 → (run b1).status = (run b2).status →
    calls (run b1).trace = calls (run b2).trace

/-- No two failure branches of a program return the same value: when two runs each leave
through a failure branch and return equal statuses, the two branches are the same one.
`branch` names the failure branch a run takes, `none` for a run that passes every check. -/
def BranchesDistinct {β : Type} (run : β → Outcome) (branch : β → Option Nat) : Prop :=
  ∀ (b1 b2 : β) (i j : Nat), branch b1 = some i → branch b2 = some j →
    (run b1).status = (run b2).status → i = j

/-- The failure branch a run of `1263351.c` takes: the source line of the `return` under the
first `NULL` check that fires (lines 20, 32, 43), `none` when every lookup succeeds. -/
def R1263351.failure_branch (b : R1263351.Behaviour) : Option Nat :=
  if b.block_sdaj = none then some 20
  else if b.input_event0 = none then some 32
  else if b.ilo_hpilo = none then some 43
  else none

/-- The failure branch a run of `1263351a.c` takes: the source line of the `return` under
the first `NULL` check that fires (lines 22, 27, 33, 44), `none` when none fires. -/
def R1263351a.failure_branch (b : R1263351a.Behaviour) : Option Nat :=
  if b.udev_device_new_from_syspath = none then some 22
  else if b.udev_device_get_sysname b.udev_device_new_from_syspath = none then some 27
  else if b.udev_device_get_subsystem b.udev_device_new_from_syspath = none then some 33
  else if b.udev_device_new_from_subsystem_sysname
      (b.udev_device_get_subsystem b.udev_device_new_from_syspath)
      (b.udev_device_get_sysname b.udev_device_new_from_syspath) = none then some 44
  else none

/-- The failure branch of a run of `1265315.c`: the program checks no answer of the library,
so there is none. -/
def R1265315.failure_branch (_ : R1265315.Behaviour) : Option Nat := none

/-- The failure branch a run of `1297512.c` takes: the source line of the `return` under the
first `NULL` or negative-status check that fires (lines 24, 30, 36), `none` when none
fires. -/
def R1297512.failure_branch (b : R1297512.Behaviour) : Option Nat :=
  if b.device_ata1 = none then some 24
  else if b.syspath = none then some 30
  else if b.scan_devices < 0 then some 36
  else none

/-- The failure branch a run of `1302359.c` takes: the source line of the `return -1` under
the first check that fires, the four `NULL` checks (lines 24, 29, 40, 45) and the two
checks on the length of the value (lines 33, 49); `none` when the run reaches line 53. -/
def R1302359.failure_branch (b : R1302359.Behaviour) : Option Nat :=
  if b.device_1 = none then some 24 else
  match b.attr_1 with
  | none => some 29
  | some attr =>
  if strlen attr > 0 then some 33 else
  if b.device_2 = none then some 40 else
  match b.attr_2 with
  | none => some 45
  | some attr =>
  if strlen attr = 0 then some 49 else
  none

/-- The failure branch a run of `1255191.c` takes: the source line of the `return res` under
the first negative-status check that fires (lines 16, 21), `none` when none fires. -/
def R1255191.failure_branch (b : R1255191.Behaviour) : Option Nat :=
  if b.add_match_parent < 0 then some 16
  else if b.scan_devices < 0 then some 21
  else none

/-- The failure branch a run of `1346446.c` takes: line 30 when the scan status is negative,
the only check of the program. -/
def R1346446.failure_branch (b : R1346446.Behaviour) : Option Nat :=
  if b.scan_devices < 0 then some 30 else none

/-- The failure branch a run of `1347299.c` takes: line 28 when the scan status is negative,
the only check of the program. -/
def R1347299.failure_branch (b : R1347299.Behaviour) : Option Nat :=
  if b.scan_devices < 0 then some 28 else none

/-- The line that `printf("%s: %s\n", name, value)` writes for an entry. -/
def entry_line (e : Entry) : String := e.name ++ ": " ++ fmt_s e.value ++ "\n"

/-- A lookup by name that walks the list from `start` to the first entry called `name`. -/
def first_by_name : List Entry → String → List Entry
  | [], _ => []
  | e :: rest, name => if e.name = name then e :: rest else first_by_name rest name

/-- A run of `1263351.c` in which only the third lookup fails. -/
def R1263351.sample : R1263351.Behaviour :=
  { context := some 1, block_sdaj := some 2, input_event0 := some 3, ilo_hpilo := none }

/-- A run of `1263351a.c`: the device is found by syspath, reports its sysname and
subsystem, and is not found again from them. -/
def R1263351a.sample : R1263351a.Behaviour :=
  { context := some 1
    udev_device_new_from_syspath := some 2
    udev_device_get_sysname := fun _ => some "hpilo!d0ccb0"
    udev_device_get_subsystem := fun _ => some "iLO"
    udev_device_new_from_subsystem_sysname := fun _ _ => none }

/-- A run of `1265315.c` on a device with two attributes, with a by-name lookup that walks
the list. -/
def R1265315.sample : R1265315.Behaviour :=
  { context := some 1
    device := some 2
    sysattr_list_1 := [⟨"path", some "a"⟩, ⟨"uevent", none⟩]
    sysattr_list_2 := [⟨"path", some "a"⟩, ⟨"uevent", none⟩]
    sysattr_value := fun _ => none
    bogus := none
    sysattr_list_4 := [⟨"path", some "a"⟩, ⟨"uevent", none⟩]
    udev_list_entry_get_by_name := first_by_name }

/-- A run of `1297512.c` in which the device is the second of two enumerated entries. -/
def R1297512.sample : R1297512.Behaviour :=
  { context := some 1
    device_sda := some 2
    device_ata1 := some 3
    syspath := some "/sys/devices/pci0000:00/0000:00:1f.2/ata1"
    enumerator := some 4
    scan_devices := 0
    list_entry := [⟨"/sys/devices/pci0000:00", none⟩,
      ⟨"/sys/devices/pci0000:00/0000:00:1f.2/ata1", none⟩] }

/-- The same run of `1297512.c`, except that the first lookup answers `NULL`. -/
def R1297512.sample_null_first : R1297512.Behaviour :=
  { R1297512.sample with device_sda := none }

/-- A run of `1302359.c` in which the first lookup answers `NULL`. -/
def R1302359.sample_no_device : R1302359.Behaviour :=
  { context := some 1, device_1 := none, attr_1 := none, device_2 := none, attr_2 := none }

/-- A run of `1302359.c` in which the first device has no `vpd_pg83` attribute. -/
def R1302359.sample_no_attr : R1302359.Behaviour :=
  { context := some 1, device_1 := some 2, attr_1 := none, device_2 := none, attr_2 := none }

/-- A run of `1302359.c` that shows the defect: an empty value, then a non-empty one. -/
def R1302359.sample_ok : R1302359.Behaviour :=
  { context := some 1, device_1 := some 2, attr_1 := some "", device_2 := some 3,
    attr_2 := some "x" }

/-- A run of `1255191.c` in which adding the parent match fails with status -22. -/
def R1255191.sample_match_fails : R1255191.Behaviour :=
  { context := some 1, enumerator := some 2, device := none, add_match_parent := -22,
    scan_devices := 0, list_entry := [⟨"/sys/devices/system/memory", none⟩] }

/-- A run of `1255191.c` in which the scan fails with status -12. -/
def R1255191.sample_scan_fails : R1255191.Behaviour :=
  { context := some 1, enumerator := some 2, device := some 3, add_match_parent := 0,
    scan_devices := -12, list_entry := [⟨"/sys/devices/system/memory", none⟩] }

/-- A run of `1255191.c` in which every call succeeds and two devices are listed. -/
def R1255191.sample_ok : R1255191.Behaviour :=
  { context := some 1, enumerator := some 2, device := some 3, add_match_parent := 0,
    scan_devices := 0
    list_entry := [⟨"/sys/devices/system/memory/memory0", none⟩,
      ⟨"/sys/devices/system/memory/memory1", none⟩] }

/-- A run of `1346446.c` in which the scan fails with status -12. -/
def R1346446.sample_scan_fails : R1346446.Behaviour :=
  { context := some 1, enumerator := some 2, scan_devices := -12,
    list_entry := [⟨"/sys/devices/platform", none⟩] }

/-- A run of `1346446.c` in which the scan succeeds and two devices are listed. -/
def R1346446.sample_ok : R1346446.Behaviour :=
  { context := some 1, enumerator := some 2, scan_devices := 0,
    list_entry := [⟨"/sys/devices/platform", none⟩, ⟨"/sys/devices/virtual", none⟩] }

/-- A run of `1347299.c` in which the scan fails with status -12. -/
def R1347299.sample_scan_fails : R1347299.Behaviour :=
  { context := some 1, enumerator := some 2, device := some 3, path_before := some "p",
    scan_devices := -12, list_entry := [⟨"/sys/devices/platform", none⟩],
    path_after := none }

/-! ## Theorems -/

/-- C1: in `1263351.c`, `main` returns 3 exactly when the first lookup is `NULL`, 2 exactly
when the first is non-`NULL` and the second is `NULL`, 1 exactly when the first two are
non-`NULL` and the third is `NULL`, 0 exactly when all three are non-`NULL`, and nothing
else. -/
theorem main_1263351_status (b : R1263351.Behaviour) :
    ((R1263351.main b).status = 3 ↔ b.block_sdaj = none) ∧
    ((R1263351.main b).status = 2 ↔ b.block_sdaj ≠ none ∧ b.input_event0 = none) ∧
    ((R1263351.main b).status = 1 ↔
      b.block_sdaj ≠ none ∧ b.input_event0 ≠ none ∧ b.ilo_hpilo = none) ∧
    ((R1263351.main b).status = 0 ↔
      b.block_sdaj ≠ none ∧ b.input_event0 ≠ none ∧ b.ilo_hpilo ≠ none) ∧
    ((R1263351.main b).status = 3 ∨ (R1263351.main b).status = 2 ∨
      (R1263351.main b).status = 1 ∨ (R1263351.main b).status = 0) := by
  obtain ⟨c, d1, d2, d3⟩ := b
  cases d1 <;> cases d2 <;> cases d3 <;> simp [R1263351.main]

/-! ### Helper lemmas -/

theorem strlen_eq_zero_iff (s : String) : strlen s = 0 ↔ s = "" := by
  obtain ⟨cs⟩ := s
  cases cs with
  | nil => exact ⟨fun _ => rfl, fun _ => rfl⟩
  | cons c cs =>
    have hc := c.utf8Size_pos
    have hne : (String.mk (c :: cs)) ≠ "" := by
      intro h
      have hd : c :: cs = [] := congrArg String.data h
      exact List.cons_ne_nil _ _ hd
    constructor
    · intro h
      have h2 : String.utf8ByteSize.go cs + c.utf8Size = 0 := h
      omega
    · intro h
      exact absurd h hne

theorem udev_list_entry_get_next_cons (e : Entry) (rest : List Entry) :
    udev_list_entry_get_next (e :: rest) = rest := rfl

theorem calls_append (s t : List Event) : calls (s ++ t) = calls s ++ calls t := by
  induction s with
  | nil => rfl
  | cons e s ih => cases e <;> simp [calls, ih]

theorem stdout_append (s t : List Event) : stdout (s ++ t) = stdout s ++ stdout t := by
  induction s with
  | nil => rfl
  | cons e s ih => cases e <;> simp [stdout, ih]

theorem stdout_print_names (l : List Entry) :
    stdout (print_names l) = l.map (fun e => e.name ++ "\n") := by
  induction l with
  | nil => rfl
  | cons e rest ih => simp [print_names, stdout, udev_list_entry_get_name, ih]

theorem stdout_loop_1 (l : List Entry) :
    stdout (R1265315.loop_1 l) = l.map entry_line := by
  induction l with
  | nil => rfl
  | cons e rest ih =>
    simp [R1265315.loop_1, stdout, udev_list_entry_get_name, udev_list_entry_get_value,
      entry_line, ih]

theorem stdout_loop_4 (b : R1265315.Behaviour) (start : List Entry)
    (hdistinct : (start.map Entry.name).Nodup)
    (hby : ∀ name, (∃ e ∈ start, e.name = name) →
      ∃ e rest, b.udev_list_entry_get_by_name start name = e :: rest ∧
        e ∈ start ∧ e.name = name)
    (l : List Entry) (hl : ∀ e ∈ l, e ∈ start) :
    stdout (R1265315.loop_4 b start l) = l.map entry_line := by
  induction l with
  | nil => rfl
  | cons e rest ih =>
    have he : e ∈ start := hl e (List.mem_cons_self _ _)
    obtain ⟨e2, rest2, hget, hmem, hname⟩ := hby e.name ⟨e, he, rfl⟩
    have hsame : e2 = e := List.inj_on_of_nodup_map hdistinct hmem he hname
    subst hsame
    have ih2 := ih (fun x hx => hl x (List.mem_cons_of_mem _ hx))
    simp [R1265315.loop_4, stdout, udev_list_entry_get_name, udev_list_entry_get_value,
      entry_line, hget, ih2]

theorem loop_1297512_fst (dev_name : String) (l : List Entry) (t : List Event) :
    (R1297512.loop dev_name l t).1 =
      if ∃ e ∈ l, e.name = dev_name then some 2 else none := by
  induction l generalizing t with
  | nil => simp [R1297512.loop]
  | cons e rest ih =>
    by_cases h : dev_name = e.name
    · simp [R1297512.loop, strcmp_eq, udev_list_entry_get_name, h]
    · have h2 : ¬ e.name = dev_name := fun h3 => h h3.symm
      simp [R1297512.loop, strcmp_eq, udev_list_entry_get_name, h, h2, ih]

/-- C2: in `1263351a.c`, `main` returns 1 if the lookup by syspath is `NULL`, otherwise 2 if
the sysname is `NULL`, otherwise 3 if the subsystem is `NULL`, otherwise 4 if the lookup by
subsystem and sysname is `NULL`, otherwise 0; every call of
`udev_device_new_from_subsystem_sysname` in the run has exactly the reported subsystem and
sysname as its arguments, and the call is made once the three earlier answers are non-`NULL`;
so `main` returns 0 exactly when the device is found again from its own reported pair. -/
theorem main_1263351a_status (b : R1263351a.Behaviour) :
    (R1263351a.main b).status =
      (if b.udev_device_new_from_syspath = none then 1
       else if b.udev_device_get_sysname b.udev_device_new_from_syspath = none then 2
       else if b.udev_device_get_subsystem b.udev_device_new_from_syspath = none then 3
       else if b.udev_device_new_from_subsystem_sysname
          (b.udev_device_get_subsystem b.udev_device_new_from_syspath)
          (b.udev_device_get_sysname b.udev_device_new_from_syspath) = none then 4
       else 0) ∧
    (∀ args, Event.call Fn.udev_device_new_from_subsystem_sysname args ∈
        (R1263351a.main b).trace →
      args = [Arg.ptr b.context,
        Arg.str (b.udev_device_get_subsystem b.udev_device_new_from_syspath),
        Arg.str (b.udev_device_get_sysname b.udev_device_new_from_syspath)]) ∧
    (b.udev_device_new_from_syspath ≠ none →
      b.udev_device_get_sysname b.udev_device_new_from_syspath ≠ none →
      b.udev_device_get_subsystem b.udev_device_new_from_syspath ≠ none →
      Event.call Fn.udev_device_new_from_subsystem_sysname [Arg.ptr b.context,
        Arg.str (b.udev_device_get_subsystem b.udev_device_new_from_syspath),
        Arg.str (b.udev_device_get_sysname b.udev_device_new_from_syspath)] ∈
        (R1263351a.main b).trace) ∧
    ((R1263351a.main b).status = 0 ↔
      b.udev_device_new_from_syspath ≠ none ∧
      b.udev_device_get_sysname b.udev_device_new_from_syspath ≠ none ∧
      b.udev_device_get_subsystem b.udev_device_new_from_syspath ≠ none ∧
      b.udev_device_new_from_subsystem_sysname
        (b.udev_device_get_subsystem b.udev_device_new_from_syspath)
        (b.udev_device_get_sysname b.udev_device_new_from_syspath) ≠ none) := by
  unfold R1263351a.main
  by_cases h1 : b.udev_device_new_from_syspath = none
  · simp [h1]
  by_cases h2 : b.udev_device_get_sysname b.udev_device_new_from_syspath = none
  · simp [h1, h2]
  by_cases h3 : b.udev_device_get_subsystem b.udev_device_new_from_syspath = none
  · simp [h1, h2, h3]
  by_cases h4 : b.udev_device_new_from_subsystem_sysname
      (b.udev_device_get_subsystem b.udev_device_new_from_syspath)
      (b.udev_device_get_sysname b.udev_device_new_from_syspath) = none
  · simp [h1, h2, h3, h4]
  · simp [h1, h2, h3, h4]

/-- C3: in `1297512.c`, when the device lookup and `udev_device_get_syspath` are non-`NULL`
and the scan status is non-negative, `main` returns 2 exactly when some enumerated entry has
the device's syspath as its name, and 0 exactly when no entry has, for every finite list. -/
theorem main_1297512_found_iff (b : R1297512.Behaviour) (dev_name : String)
    (hdev : b.device_ata1 ≠ none) (hpath : b.syspath = some dev_name)
    (hscan : 0 ≤ b.scan_devices) :
    ((R1297512.main b).status = 2 ↔ ∃ e ∈ b.list_entry, e.name = dev_name) ∧
    ((R1297512.main b).status = 0 ↔ ∀ e ∈ b.list_entry, e.name ≠ dev_name) := by
  have hs : ¬ b.scan_devices < 0 := by omega
  have key := loop_1297512_fst dev_name b.list_entry
  unfold R1297512.main
  simp only [hdev, hpath, hs, if_false]
  split
  next r t heq =>
    have hk := congrArg Prod.fst heq
    rw [key] at hk
    by_cases hex : ∃ e ∈ b.list_entry, e.name = dev_name
    · rw [if_pos hex] at hk
      have hr : r = 2 := (Option.some.inj hk).symm
      subst hr
      refine ⟨⟨fun _ => hex, fun _ => rfl⟩, ⟨fun h => absurd h (by simp), fun h => ?_⟩⟩
      obtain ⟨e, he, hn⟩ := hex
      exact absurd hn (h e he)
    · rw [if_neg hex] at hk
      exact absurd hk (by simp)
  next t heq =>
    have hk := congrArg Prod.fst heq
    rw [key] at hk
    by_cases hex : ∃ e ∈ b.list_entry, e.name = dev_name
    · rw [if_pos hex] at hk
      exact absurd hk (by simp)
    · refine ⟨⟨fun h => absurd h (by simp), fun h => absurd h hex⟩,
        ⟨fun _ e he hn => hex ⟨e, he, hn⟩, fun _ => rfl⟩⟩

/-- C4: in `1302359.c`, `main` returns 0 exactly when both lookups are non-`NULL`, both
`vpd_pg83` values are non-`NULL`, the first value is empty and the second is not; in every
other case it returns -1. -/
theorem main_1302359_status (b : R1302359.Behaviour) :
    ((R1302359.main b).status = 0 ↔
      b.device_1 ≠ none ∧ b.device_2 ≠ none ∧
      ∃ a1 a2, b.attr_1 = some a1 ∧ b.attr_2 = some a2 ∧ a1 = "" ∧ a2 ≠ "") ∧
    ((R1302359.main b).status ≠ 0 → (R1302359.main b).status = -1) := by
  obtain ⟨c, d1, a1, d2, a2⟩ := b
  unfold R1302359.main
  cases d1 <;> cases a1 <;> cases d2 <;> cases a2 <;>
    simp only [strlen_eq_zero_iff, Nat.pos_iff_ne_zero, gt_iff_lt] <;>
    split_ifs <;> simp_all [strlen_eq_zero_iff]

/-- Witness of C2 on a run where the device is found and is not found again: the final
lookup is in the trace with the reported pair, and the status is 4. -/
theorem main_1263351a_status_witness :
    R1263351a.sample.udev_device_new_from_syspath ≠ none ∧
    Event.call Fn.udev_device_new_from_subsystem_sysname
      [Arg.ptr (some 1), Arg.str (some "iLO"), Arg.str (some "hpilo!d0ccb0")] ∈
      (R1263351a.main R1263351a.sample).trace :=
  ⟨by decide,
   (main_1263351a_status R1263351a.sample).2.2.1 (by decide) (by decide) (by decide)⟩

/-- Witness of C3 on a run whose second enumerated entry is the device. -/
theorem main_1297512_found_iff_witness :
    R1297512.sample.device_ata1 ≠ none ∧
    R1297512.sample.syspath = some "/sys/devices/pci0000:00/0000:00:1f.2/ata1" ∧
    0 ≤ R1297512.sample.scan_devices ∧
    (((R1297512.main R1297512.sample).status = 2 ↔
      ∃ e ∈ R1297512.sample.list_entry,
        e.name = "/sys/devices/pci0000:00/0000:00:1f.2/ata1") ∧
     ((R1297512.main R1297512.sample).status = 0 ↔
      ∀ e ∈ R1297512.sample.list_entry,
        e.name ≠ "/sys/devices/pci0000:00/0000:00:1f.2/ata1")) :=
  ⟨by decide, rfl, by decide,
   main_1297512_found_iff R1297512.sample "/sys/devices/pci0000:00/0000:00:1f.2/ata1"
     (by decide) rfl (by decide)⟩

/-- C7: in `1255191.c`, `1346446.c` and `1347299.c`, a negative scan status is returned as
it is, no entry name is printed and the list is never fetched; in `1255191.c` a negative
status of `udev_enumerate_add_match_parent` is returned as it is and the scan is never
called; `main` returns 0 only when every checked status is non-negative.  In `1255191.c`
the scan is called only after `udev_enumerate_add_match_parent` succeeded. -/
theorem enumerate_failure_status (a : R1255191.Behaviour) (c : R1346446.Behaviour)
    (d : R1347299.Behaviour) :
    (0 ≤ a.add_match_parent → a.scan_devices < 0 →
      (R1255191.main a).status = a.scan_devices ∧
      stdout (R1255191.main a).trace = [] ∧
      Fn.udev_enumerate_get_list_entry ∉ calls (R1255191.main a).trace) ∧
    (c.scan_devices < 0 →
      (R1346446.main c).status = c.scan_devices ∧
      stdout (R1346446.main c).trace = [] ∧
      Fn.udev_enumerate_get_list_entry ∉ calls (R1346446.main c).trace) ∧
    (d.scan_devices < 0 →
      (R1347299.main d).status = d.scan_devices ∧
      stdout (R1347299.main d).trace =
        ["path before: " ++ fmt_s d.path_before ++ "\n", "Printing devices...\n"] ∧
      Fn.udev_enumerate_get_list_entry ∉ calls (R1347299.main d).trace ∧
      Fn.udev_list_entry_get_name ∉ calls (R1347299.main d).trace) ∧
    (a.add_match_parent < 0 →
      (R1255191.main a).status = a.add_match_parent ∧
      Fn.udev_enumerate_scan_devices ∉ calls (R1255191.main a).trace) ∧
    ((R1255191.main a).status = 0 → 0 ≤ a.add_match_parent ∧ 0 ≤ a.scan_devices) ∧
    ((R1346446.main c).status = 0 → 0 ≤ c.scan_devices) ∧
    ((R1347299.main d).status = 0 → 0 ≤ d.scan_devices) := by
  refine ⟨?_, ?_, ?_, ?_, ?_, ?_, ?_⟩
  · intro h1 h2
    have h1n : ¬ a.add_match_parent < 0 := by omega
    simp [R1255191.main, h1n, h2, stdout, calls]
  · intro h
    simp [R1346446.main, h, stdout, calls]
  · intro h
    simp [R1347299.main, h, stdout, calls]
  · intro h
    simp [R1255191.main, h, calls]
  · intro h
    unfold R1255191.main at h
    simp only [] at h
    split_ifs at h with h1 h2
    · simp only [] at h; omega
    · simp only [] at h; omega
    · omega
  · intro h
    unfold R1346446.main at h
    simp only [] at h
    split_ifs at h with h1
    · simp only [] at h; omega
    · omega
  · intro h
    unfold R1347299.main at h
    simp only [] at h
    split_ifs at h with h1
    · simp only [] at h; omega
    · omega

/-- Witness of C4 on the run whose first device has no `vpd_pg83` attribute: the status is
not 0, hence -1. -/
theorem main_1302359_status_witness :
    (R1302359.main R1302359.sample_no_attr).status ≠ 0 ∧
    (R1302359.main R1302359.sample_no_attr).status = -1 :=
  ⟨by decide, (main_1302359_status R1302359.sample_no_attr).2 (by decide)⟩

/-- Witness of C7 on three runs whose scan fails with -12 and one whose parent match fails
with -22. -/
theorem enumerate_failure_status_witness :
    (0 ≤ R1255191.sample_scan_fails.add_match_parent ∧
      R1255191.sample_scan_fails.scan_devices < 0 ∧
      (R1255191.main R1255191.sample_scan_fails).status = -12) ∧
    (R1346446.sample_scan_fails.scan_devices < 0 ∧
      (R1346446.main R1346446.sample_scan_fails).status = -12) ∧
    (R1347299.sample_scan_fails.scan_devices < 0 ∧
      (R1347299.main R1347299.sample_scan_fails).status = -12) ∧
    (R1255191.sample_match_fails.add_match_parent < 0 ∧
      (R1255191.main R1255191.sample_match_fails).status = -22) :=
  ⟨⟨by decide, by decide,
    ((enumerate_failure_status R1255191.sample_scan_fails R1346446.sample_scan_fails
      R1347299.sample_scan_fails).1 (by decide) (by decide)).1⟩,
   ⟨by decide,
    ((enumerate_failure_status R1255191.sample_scan_fails R1346446.sample_scan_fails
      R1347299.sample_scan_fails).2.1 (by decide)).1⟩,
   ⟨by decide,
    ((enumerate_failure_status R1255191.sample_scan_fails R1346446.sample_scan_fails
      R1347299.sample_scan_fails).2.2.1 (by decide)).1⟩,
   ⟨by decide,
    ((enumerate_failure_status R1255191.sample_match_fails R1346446.sample_scan_fails
      R1347299.sample_scan_fails).2.2.2.1 (by decide)).1⟩⟩

/-- C8: in `1255191.c` and `1346446.c`, when every checked status is non-negative, the
program writes exactly the names of the enumerated entries, each followed by a newline, once
each and in list order (nothing for the empty list), and returns 0. -/
theorem enumerate_prints_names (a : R1255191.Behaviour) (c : R1346446.Behaviour) :
    (0 ≤ a.add_match_parent → 0 ≤ a.scan_devices →
      stdout (R1255191.main a).trace = a.list_entry.map (fun e => e.name ++ "\n") ∧
      (R1255191.main a).status = 0) ∧
    (0 ≤ c.scan_devices →
      stdout (R1346446.main c).trace = c.list_entry.map (fun e => e.name ++ "\n") ∧
      (R1346446.main c).status = 0) := by
  constructor
  · intro h1 h2
    have h1n : ¬ a.add_match_parent < 0 := by omega
    have h2n : ¬ a.scan_devices < 0 := by omega
    simp [R1255191.main, h1n, h2n, stdout, stdout_append, stdout_print_names]
  · intro h
    have hn : ¬ c.scan_devices < 0 := by omega
    simp [R1346446.main, hn, stdout, stdout_append, stdout_print_names]

/-- Witness of C8 on two runs that each list two devices. -/
theorem enumerate_prints_names_witness :
    (0 ≤ R1255191.sample_ok.add_match_parent ∧ 0 ≤ R1255191.sample_ok.scan_devices ∧
      stdout (R1255191.main R1255191.sample_ok).trace =
        ["/sys/devices/system/memory/memory0\n", "/sys/devices/system/memory/memory1\n"]) ∧
    (0 ≤ R1346446.sample_ok.scan_devices ∧
      stdout (R1346446.main R1346446.sample_ok).trace =
        ["/sys/devices/platform\n", "/sys/devices/virtual\n"]) :=
  ⟨⟨by decide, by decide,
    ((enumerate_prints_names R1255191.sample_ok R1346446.sample_ok).1
      (by decide) (by decide)).1⟩,
   ⟨by decide,
    ((enumerate_prints_names R1255191.sample_ok R1346446.sample_ok).2 (by decide)).1⟩⟩

/-- C10: in `1297512.c`, two library behaviours that differ only in what the first
`udev_device_new_from_syspath` call returns (`NULL` included) give the same returned value,
and indeed the same run up to the handle itself, which is never passed on. -/
theorem main_1297512_ignores_first_lookup (b1 b2 : R1297512.Behaviour)
    (hcontext : b1.context = b2.context) (hata1 : b1.device_ata1 = b2.device_ata1)
    (hsyspath : b1.syspath = b2.syspath) (henumerator : b1.enumerator = b2.enumerator)
    (hscan : b1.scan_devices = b2.scan_devices) (hlist : b1.list_entry = b2.list_entry) :
    (R1297512.main b1).status = (R1297512.main b2).status ∧
    R1297512.main b1 = R1297512.main b2 := by
  have h : R1297512.main b1 = R1297512.main b2 := by
    unfold R1297512.main
    simp only [hcontext, hata1, hsyspath, henumerator, hscan, hlist]
  exact ⟨congrArg Outcome.status h, h⟩

/-- Witness of C10 on two runs whose first lookup answers a device and `NULL`. -/
theorem main_1297512_ignores_first_lookup_witness :
    R1297512.sample.device_sda ≠ R1297512.sample_null_first.device_sda ∧
    (R1297512.main R1297512.sample).status =
      (R1297512.main R1297512.sample_null_first).status :=
  ⟨by decide,
   (main_1297512_ignores_first_lookup R1297512.sample R1297512.sample_null_first
     rfl rfl rfl rfl rfl rfl).1⟩

/-- C6: in `1265315.c`, when the library returns the same sysattr list for the fourth listing
as for the first, the names in it are pairwise distinct, and
`udev_list_entry_get_by_name(start, name)` returns an entry of the list whose name is
`name`, the fourth listing writes the same `name: value` lines as the first, in the same
order and in the same number. -/
theorem listing_4_like_first (b : R1265315.Behaviour)
    (hsame : b.sysattr_list_4 = b.sysattr_list_1)
    (hdistinct : (b.sysattr_list_1.map Entry.name).Nodup)
    (hby : ∀ name, (∃ e ∈ b.sysattr_list_1, e.name = name) →
      ∃ e rest, b.udev_list_entry_get_by_name b.sysattr_list_1 name = e :: rest ∧
        e ∈ b.sysattr_list_1 ∧ e.name = name) :
    stdout (R1265315.loop_4 b b.sysattr_list_4 b.sysattr_list_4) =
      stdout (R1265315.loop_1 b.sysattr_list_1) ∧
    (stdout (R1265315.loop_4 b b.sysattr_list_4 b.sysattr_list_4)).length =
      b.sysattr_list_1.length ∧
    stdout (R1265315.listing_1 b) =
      ["udev_list_entry_get_value()\n", "Correct behavior, values are not obtained.\n"] ++
        b.sysattr_list_1.map entry_line ++ ["\n"] ∧
    stdout (R1265315.listing_4 b) =
      ["Should be like the first.\n"] ++ b.sysattr_list_1.map entry_line ++ ["\n"] ∧
    (R1265315.main b).trace =
      R1265315.listing_1 b ++ R1265315.listing_2 b ++ R1265315.listing_3 b ++
        R1265315.listing_4 b := by
  have h4 : stdout (R1265315.loop_4 b b.sysattr_list_4 b.sysattr_list_4) =
      b.sysattr_list_1.map entry_line := by
    rw [hsame]
    exact stdout_loop_4 b b.sysattr_list_1 hdistinct hby b.sysattr_list_1 (fun _ h => h)
  refine ⟨?_, ?_, ?_, ?_, rfl⟩
  · rw [h4, stdout_loop_1]
  · rw [h4, List.length_map]
  · simp [R1265315.listing_1, stdout, stdout_append, stdout_loop_1]
  · simp [R1265315.listing_4, stdout, stdout_append, h4]

/-- Witness of C6 on a device with the attributes `path` and `uevent` and a by-name lookup
that walks the list. -/
theorem listing_4_like_first_witness :
    R1265315.sample.sysattr_list_4 = R1265315.sample.sysattr_list_1 ∧
    (R1265315.sample.sysattr_list_1.map Entry.name).Nodup ∧
    stdout (R1265315.listing_4 R1265315.sample) =
      ["Should be like the first.\n", "path: a\n", "uevent: (null)\n", "\n"] :=
  ⟨rfl, by decide,
   (listing_4_like_first R1265315.sample rfl (by decide) (by
      rintro name ⟨e, he, hn⟩
      simp only [R1265315.sample, List.mem_cons, List.mem_singleton, List.not_mem_nil,
        or_false] at he
      rcases he with rfl | rfl
      · subst hn
        exact ⟨⟨"path", some "a"⟩, [⟨"uevent", none⟩], by decide, by decide, rfl⟩
      · subst hn
        exact ⟨⟨"uevent", none⟩, [], by decide, by decide, rfl⟩)).2.2.2.1⟩

/-- Counterexample to C9: when the first lookup of `1302359.c` answers `NULL`, `main` returns
-1, which is neither 0 nor 2. -/
theorem main_1302359_returns_minus_one :
    (R1302359.main R1302359.sample_no_device).status = -1 ∧
    ¬ ((R1302359.main R1302359.sample_no_device).status = 0 ∨
       (R1302359.main R1302359.sample_no_device).status = 2) := by
  decide

/-- C9, amended: in `1302359.c`, `main` returns 0 for some library behaviour and -1 for some
other, every value it returns is 0 or -1, and it never returns 2. -/
theorem main_1302359_zero_or_minus_one :
    (∃ b, (R1302359.main b).status = 0) ∧
    (∃ b, (R1302359.main b).status = -1) ∧
    (∀ b, (R1302359.main b).status = 0 ∨ (R1302359.main b).status = -1) ∧
    (∀ b, (R1302359.main b).status ≠ 2) := by
  have hall : ∀ b, (R1302359.main b).status = 0 ∨ (R1302359.main b).status = -1 := by
    intro b
    obtain ⟨c, d1, a1, d2, a2⟩ := b
    unfold R1302359.main
    cases d1 <;> cases a1 <;> cases d2 <;> cases a2 <;>
      simp only [] <;> split_ifs <;> simp
  refine ⟨⟨R1302359.sample_ok, ?_⟩, ⟨R1302359.sample_no_device, by decide⟩, hall, ?_⟩
  · simp [R1302359.main, R1302359.sample_ok, strlen_eq_zero_iff, Nat.pos_iff_ne_zero]
  · intro b h
    rcases hall b with h0 | h1
    · rw [h0] at h; exact absurd h (by decide)
    · rw [h1] at h; exact absurd h (by decide)

/-- Counterexample to C5: in `1302359.c` the `NULL` check on the first device (line 24) and
the `NULL` check on its attribute (line 29) are two different failure branches, reached
after different library calls, and both return -1; so the status does not identify the step
that failed. -/
theorem failure_status_not_distinct_1302359 :
    (R1302359.main R1302359.sample_no_device).status = -1 ∧
    (R1302359.main R1302359.sample_no_attr).status = -1 ∧
    calls (R1302359.main R1302359.sample_no_device).trace ≠
      calls (R1302359.main R1302359.sample_no_attr).trace ∧
    ¬ StatusIdentifiesStep R1302359.main ∧
    R1302359.failure_branch R1302359.sample_no_device = some 24 ∧
    R1302359.failure_branch R1302359.sample_no_attr = some 29 ∧
    ¬ BranchesDistinct R1302359.main R1302359.failure_branch := by
  refine ⟨by decide, by decide, by decide, ?_, by decide, by decide, ?_⟩
  · intro h
    exact absurd
      (h R1302359.sample_no_device R1302359.sample_no_attr (by decide) (by decide))
      (by decide)
  · intro h
    exact absurd
      (h R1302359.sample_no_device R1302359.sample_no_attr 24 29 (by decide) (by decide)
        (by decide))
      (by decide)

/-- C5, amended: in `1263351.c`, `1263351a.c`, `1346446.c`, `1347299.c` and `1265315.c` each
failure branch returns a value distinct from the one returned by every other failure branch
of the same program and from the 0 of a run that passes every check, so the returned status
identifies the step that failed (`1265315.c` has no failure branch, `1346446.c` and
`1347299.c` have one).  It does not hold in the other
three: in `1302359.c` every failure branch returns -1; in `1297512.c` both `NULL` checks
return -1 and a negative scan status is returned as it is; in `1255191.c` both
negative-status checks return the status of the library as it is, and the two can be
equal. -/
theorem failure_status_per_program :
    BranchesDistinct R1263351.main R1263351.failure_branch ∧
    BranchesDistinct R1263351a.main R1263351a.failure_branch ∧
    BranchesDistinct R1346446.main R1346446.failure_branch ∧
    BranchesDistinct R1347299.main R1347299.failure_branch ∧
    BranchesDistinct R1265315.main R1265315.failure_branch ∧
    (∀ b, R1263351.failure_branch b = none ↔ (R1263351.main b).status = 0) ∧
    (∀ b, R1263351a.failure_branch b = none ↔ (R1263351a.main b).status = 0) ∧
    (∀ b, R1346446.failure_branch b = none ↔ (R1346446.main b).status = 0) ∧
    (∀ b, R1347299.failure_branch b = none ↔ (R1347299.main b).status = 0) ∧
    (∀ b, R1265315.failure_branch b = none ↔ (R1265315.main b).status = 0) ∧
    (∀ b, R1302359.failure_branch b ≠ none → (R1302359.main b).status = -1) ∧
    ¬ BranchesDistinct R1302359.main R1302359.failure_branch ∧
    (∀ b : R1297512.Behaviour, b.device_ata1 = none → (R1297512.main b).status = -1) ∧
    (∀ b : R1297512.Behaviour, b.device_ata1 ≠ none → b.syspath = none →
      (R1297512.main b).status = -1) ∧
    (∀ b : R1297512.Behaviour, b.device_ata1 ≠ none → b.syspath ≠ none →
      b.scan_devices < 0 → (R1297512.main b).status = b.scan_devices) ∧
    ¬ BranchesDistinct R1297512.main R1297512.failure_branch ∧
    (∀ b : R1255191.Behaviour, b.add_match_parent < 0 →
      (R1255191.main b).status = b.add_match_parent) ∧
    (∀ b : R1255191.Behaviour, 0 ≤ b.add_match_parent → b.scan_devices < 0 →
      (R1255191.main b).status = b.scan_devices) ∧
    ¬ BranchesDistinct R1255191.main R1255191.failure_branch := by
  refine ⟨?_, ?_, ?_, ?_, ?_, ?_, ?_, ?_, ?_, ?_, ?_, ?_, ?_, ?_, ?_, ?_, ?_, ?_, ?_⟩
  · rintro ⟨c1, x1, y1, z1⟩ ⟨c2, x2, y2, z2⟩ i j h1 h2 hs
    cases x1 <;> cases y1 <;> cases z1 <;> cases x2 <;> cases y2 <;> cases z2 <;>
      simp [R1263351.main, R1263351.failure_branch] at h1 h2 hs <;> omega
  · intro b1 b2 i j h1 h2 hs
    unfold R1263351a.main at hs
    unfold R1263351a.failure_branch at h1 h2
    simp only [] at hs
    split_ifs at h1 h2 hs <;> simp at h1 h2 hs <;> omega
  · intro b1 b2 i j h1 h2 _
    unfold R1346446.failure_branch at h1 h2
    split_ifs at h1 h2
    simp at h1 h2
    omega
  · intro b1 b2 i j h1 h2 _
    unfold R1347299.failure_branch at h1 h2
    split_ifs at h1 h2
    simp at h1 h2
    omega
  · intro b1 b2 i j h1 _ _
    simp [R1265315.failure_branch] at h1
  · rintro ⟨c, x, y, z⟩
    cases x <;> cases y <;> cases z <;> simp [R1263351.main, R1263351.failure_branch]
  · intro b
    unfold R1263351a.main R1263351a.failure_branch
    simp only []
    split_ifs <;> simp
  · intro b
    unfold R1346446.main R1346446.failure_branch
    simp only []
    split_ifs with h <;> simp
    omega
  · intro b
    unfold R1347299.main R1347299.failure_branch
    simp only []
    split_ifs with h <;> simp
    omega
  · intro b
    simp [R1265315.main, R1265315.failure_branch]
  · intro b
    obtain ⟨c, d1, a1, d2, a2⟩ := b
    unfold R1302359.main R1302359.failure_branch
    cases d1 <;> cases a1 <;> cases d2 <;> cases a2 <;>
      simp only [] <;> split_ifs <;> simp
  · intro h
    exact absurd
      (h R1302359.sample_no_device R1302359.sample_no_attr 24 29 (by decide) (by decide)
        (by decide))
      (by decide)
  · intro b h
    simp [R1297512.main, h]
  · intro b h1 h2
    simp [R1297512.main, h1, h2]
  · intro b h1 h2 h3
    obtain ⟨p, hp⟩ := Option.ne_none_iff_exists'.mp h2
    simp [R1297512.main, h1, hp, h3]
  · intro h
    exact absurd
      (h { R1297512.sample with device_ata1 := none }
        { R1297512.sample with syspath := none } 24 30 (by decide) (by decide) (by decide))
      (by decide)
  · intro b h
    simp [R1255191.main, h]
  · intro b h1 h2
    have h1n : ¬ b.add_match_parent < 0 := by omega
    simp [R1255191.main, h1n, h2]
  · intro h
    exact absurd
      (h R1255191.sample_match_fails
        { R1255191.sample_scan_fails with scan_devices := -22 } 16 21
        (by decide) (by decide) (by decide))
      (by decide)

/-- Witness of C5, amended, on two runs of `1263351.c`, one leaving at line 32 and one at
line 43: were their statuses equal the two lines would be equal, so the statuses differ. -/
theorem failure_status_per_program_witness :
    R1263351.failure_branch { R1263351.sample with input_event0 := none } = some 32 ∧
    R1263351.failure_branch R1263351.sample = some 43 ∧
    (R1263351.main { R1263351.sample with input_event0 := none }).status ≠
      (R1263351.main R1263351.sample).status :=
  ⟨by decide, by decide, fun hs =>
    absurd
      (failure_status_per_program.1 { R1263351.sample with input_event0 := none }
        R1263351.sample 32 43 (by decide) (by decide) hs)
      (by decide)⟩

end Udev
